import Mathlib

/-!
Verification development for the pitchbox repository: a FastAPI service
(src/backend/voiceover.py) exposing GET /generate-audio and POST /upload-tigris,
built on two S3 wrapper functions (src/backend/tigris.py) and an audio chunk
write loop (src/elevenlabs/voiceover.py).

The embedding is a shallow, functional one: the remote object store and the
local filesystem are finite maps, boto3 calls are fallible primitives whose
failures are injected through Boolean reachability oracles, Python exceptions
are the Except error channel, and the vendor text-to-speech call is an oracle
parameter of the handler. Each handler returns the final states together with
its HTTP-level result, the stdout log, and the storage and synthesis calls it
made.
-/

namespace Pitchbox

/-- Byte sequences (Python bytes values) as lists of naturals. -/
abbrev Bytes := List Nat

/-- The Python runtime values these scripts pass around: None or a str. -/
inductive Py where
  | none : Py
  | str : String → Py
deriving DecidableEq

/-- Python truthiness on the modelled values: None and the empty string are falsy. -/
def Py.truthy : Py → Bool
  | Py.none => false
  | Py.str s => decide (s ≠ "")

/-- A JSON-dict response returned by a handler: its message field, and whether
the error field is present and set to True. -/
structure Response where
  message : String
  error : Bool
deriving DecidableEq

/-- Object-store state: bucket name and object key to the stored bytes. -/
structure S3 where
  objects : String → String → Option Bytes

/-- Local filesystem state: path to file bytes. -/
abbrev FS := String → Option Bytes

/-- Writing a file at a path (open in wb mode plus write), overwriting. -/
def FS.update (fs : FS) (p : String) (d : Bytes) : FS :=
  fun q => if q = p then some d else fs q

/-- Deleting a file at a path (os.remove). -/
def FS.remove (fs : FS) (p : String) : FS :=
  fun q => if q = p then Option.none else fs q

/-- Process environment, read by os.getenv. -/
abbrev Env := String → Option String

/-- Models os.getenv with a default value. -/
def os_getenv (env : Env) (key dflt : String) : String :=
  (env key).getD dflt

/-- One storage API call, recording the endpoint, bucket and key it addressed. -/
structure S3Call where
  endpoint : String
  bucket : String
  key : String
deriving DecidableEq

/-- Models the boto3 s3.upload_file call: it raises (the error branch) when the
endpoint is unreachable (net = false) or the local file is missing; otherwise it
stores the file bytes under the key, overwriting any existing object. A failed
call leaves the bucket unchanged: no partial object is created. -/
def s3_upload_file (net : Bool) (fs : FS) (st : S3)
    (file_path bucket key : String) : Except String S3 :=
  if net then
    match fs file_path with
    | some data =>
        Except.ok ⟨fun b k => if b = bucket ∧ k = key then some data else st.objects b k⟩
    | Option.none => Except.error "FileNotFoundError"
  else Except.error "EndpointConnectionError"

/-- Models the boto3 s3.get_object call followed by reading the body: it raises
when the endpoint is unreachable or the key is absent from the bucket. -/
def s3_get_object (net : Bool) (st : S3) (bucket key : String) : Except String Bytes :=
  if net then
    match st.objects bucket key with
    | some data => Except.ok data
    | Option.none => Except.error "NoSuchKey"
  else Except.error "EndpointConnectionError"

/-- Decodes a UTF-8 byte list to characters: strict RFC 3629 ranges, rejecting
continuation errors, overlong forms and surrogates, as the strict utf-8 codec
behind the Python bytes decode call does. -/
def utf8DecodeChars : List Nat → Option (List Char)
  | [] => some []
  | b1 :: rest =>
    if b1 ≤ 0x7F then
      (utf8DecodeChars rest).map (fun cs => Char.ofNat b1 :: cs)
    else if 0xC2 ≤ b1 ∧ b1 ≤ 0xDF then
      match rest with
      | b2 :: rest2 =>
        if 0x80 ≤ b2 ∧ b2 ≤ 0xBF then
          (utf8DecodeChars rest2).map
            (fun cs => Char.ofNat ((b1 - 0xC0) * 0x40 + (b2 - 0x80)) :: cs)
        else Option.none
      | [] => Option.none
    else if 0xE0 ≤ b1 ∧ b1 ≤ 0xEF then
      match rest with
      | b2 :: b3 :: rest3 =>
        if (if b1 = 0xE0 then 0xA0 ≤ b2 ∧ b2 ≤ 0xBF
            else if b1 = 0xED then 0x80 ≤ b2 ∧ b2 ≤ 0x9F
            else 0x80 ≤ b2 ∧ b2 ≤ 0xBF)
            ∧ 0x80 ≤ b3 ∧ b3 ≤ 0xBF then
          (utf8DecodeChars rest3).map
            (fun cs =>
              Char.ofNat ((b1 - 0xE0) * 0x1000 + (b2 - 0x80) * 0x40 + (b3 - 0x80)) :: cs)
        else Option.none
      | _ => Option.none
    else if 0xF0 ≤ b1 ∧ b1 ≤ 0xF4 then
      match rest with
      | b2 :: b3 :: b4 :: rest4 =>
        if (if b1 = 0xF0 then 0x90 ≤ b2 ∧ b2 ≤ 0xBF
            else if b1 = 0xF4 then 0x80 ≤ b2 ∧ b2 ≤ 0x8F
            else 0x80 ≤ b2 ∧ b2 ≤ 0xBF)
            ∧ 0x80 ≤ b3 ∧ b3 ≤ 0xBF ∧ 0x80 ≤ b4 ∧ b4 ≤ 0xBF then
          (utf8DecodeChars rest4).map
            (fun cs =>
              Char.ofNat
                ((b1 - 0xF0) * 0x40000 + (b2 - 0x80) * 0x1000
                  + (b3 - 0x80) * 0x40 + (b4 - 0x80)) :: cs)
        else Option.none
      | _ => Option.none
    else Option.none

/-- Models the decode call on bytes with the utf-8 codec in tigris.py: a string
on success, a UnicodeDecodeError exception otherwise. -/
def utf8Decode (bs : Bytes) : Except String String :=
  match utf8DecodeChars bs with
  | some cs => Except.ok (String.mk cs)
  | Option.none => Except.error "UnicodeDecodeError"

/-- Embeds upload_to_tigris from src/backend/tigris.py. The s3.upload_file call
sits inside try/except Exception, which prints and swallows any failure, and the
function has no return statement on either path, so its Python return value is
always None. The Except layer is the Python exception channel of the function
itself: an ok result means it returned normally (as it always does). The result
carries the bucket state, the returned value, the printed lines, and the storage
call made. -/
def upload_to_tigris (net : Bool) (fs : FS) (st : S3)
    (file_path bucket_name object_name : String)
    (endpoint_url : String := "https://t3.storage.dev") :
    Except String (S3 × Py × List String × List S3Call) :=
  match s3_upload_file net fs st file_path bucket_name object_name with
  | Except.ok st2 =>
      Except.ok (st2, Py.none,
        [object_name ++ " uploaded successfully to " ++ bucket_name],
        [⟨endpoint_url, bucket_name, object_name⟩])
  | Except.error e =>
      Except.ok (st, Py.none,
        ["Error uploading " ++ object_name ++ ": " ++ e],
        [⟨endpoint_url, bucket_name, object_name⟩])

/-- Embeds list_and_read_script from src/backend/tigris.py. The get_object call
and the utf-8 decode both sit inside try/except Exception; on any failure the
function prints and falls off the end, returning None. On success it returns the
decoded text. -/
def list_and_read_script (net : Bool) (st : S3) (bucket_name : String)
    (endpoint_url : String := "https://t3.storage.dev") :
    Except String (Py × List String × List S3Call) :=
  match s3_get_object net st bucket_name "script.txt" with
  | Except.ok data =>
      match utf8Decode data with
      | Except.ok text =>
          Except.ok (Py.str text, [],
            [⟨endpoint_url, bucket_name, "script.txt"⟩])
      | Except.error e =>
          Except.ok (Py.none, ["Error reading script.txt: " ++ e],
            [⟨endpoint_url, bucket_name, "script.txt"⟩])
  | Except.error e =>
      Except.ok (Py.none, ["Error reading script.txt: " ++ e],
        [⟨endpoint_url, bucket_name, "script.txt"⟩])

/-- Arguments of one client.text_to_speech.convert call. -/
structure ConvertArgs where
  text : Py
  voice_id : String
  model_id : String
  output_format : String
deriving DecidableEq

/-- Observable outcome of one handler invocation: the HTTP-level result (the
error branch is an exception escaping to the framework, which turns it into a
5xx response), the final bucket and local filesystem states, the stdout log,
the storage calls made, and the synthesis calls made. -/
structure HandlerOut where
  result : Except String Response
  s3 : S3
  fs : FS
  log : List String
  calls : List S3Call
  tts : List ConvertArgs

/-- The chunk write loop shared by src/backend/voiceover.py and
src/elevenlabs/voiceover.py: for chunk in audio, if chunk is truthy, write it.
An empty bytes chunk is falsy and is skipped. -/
def writeChunks (chunks : List Bytes) : Bytes :=
  chunks.foldl (fun acc c => if c = [] then acc else acc ++ c) []

/-- Embeds the generate_audio handler (GET /generate-audio) of
src/backend/voiceover.py. The convert parameter models
client.text_to_speech.convert: it may raise, or yield a finite stream of byte
chunks which the loop writes to ./audio/output.mp3; netFetch and netUpload model
storage reachability at the script fetch and at the artifact upload. The
upload_to_tigris return value is ignored and the success message is returned
unconditionally after the upload call returns. -/
def generate_audio (env : Env) (convert : ConvertArgs → Except String (List Bytes))
    (netFetch netUpload : Bool) (fs : FS) (st : S3) : HandlerOut :=
  match list_and_read_script netFetch st "pitchbox" with
  | Except.error e => ⟨Except.error e, st, fs, [], [], []⟩
  | Except.ok (script_text, log1, calls1) =>
    let voice_id := os_getenv env "VOICE_ID" "JBFqnCBsd6RMkjVDRZzb"
    let model_id := "eleven_multilingual_v2"
    let args : ConvertArgs := ⟨script_text, voice_id, model_id, "mp3_44100_128"⟩
    match convert args with
    | Except.error e => ⟨Except.error e, st, fs, log1, calls1, [args]⟩
    | Except.ok chunks =>
      let output_path := "./audio/output.mp3"
      let fs1 := FS.update fs output_path (writeChunks chunks)
      match upload_to_tigris netUpload fs1 st output_path "pitchbox" "output.mp3" with
      | Except.error e => ⟨Except.error e, st, fs1, log1, calls1, [args]⟩
      | Except.ok (st2, _success, log2, calls2) =>
          ⟨Except.ok ⟨"Audio generated and uploaded successfully.", false⟩,
            st2, fs1, log1 ++ log2, calls1 ++ calls2, [args]⟩

/-- Embeds the upload_tigris handler (POST /upload-tigris) of
src/backend/voiceover.py. The readOk and content parameters model the awaited
file.read() of the multipart upload: the open call in wb mode has already
created (truncated) the temporary file when the read happens, so a failing read
escapes as an exception with the empty temporary file left on disk. On the
normal path the content is written to the temporary file, uploaded, and the
temporary file removed; the response branch tests Python truthiness of the
upload_to_tigris return value. -/
def upload_tigris (readOk : Bool) (content : Bytes) (net : Bool)
    (fs : FS) (st : S3) : HandlerOut :=
  let bucket_name := "pitchbox"
  let object_name := "script.txt"
  let temp_path := "./temp_" ++ object_name
  let fs0 := FS.update fs temp_path []
  if readOk then
    let fs1 := FS.update fs0 temp_path content
    match upload_to_tigris net fs1 st temp_path bucket_name object_name with
    | Except.error e => ⟨Except.error e, st, fs1, [], [], []⟩
    | Except.ok (st2, success, log2, calls2) =>
      let fs2 := FS.remove fs1 temp_path
      if success.truthy then
        ⟨Except.ok ⟨object_name ++ " uploaded successfully to " ++ bucket_name, false⟩,
          st2, fs2, log2, calls2, []⟩
      else
        ⟨Except.ok ⟨"Error uploading " ++ object_name, true⟩,
          st2, fs2, log2, calls2, []⟩
  else ⟨Except.error "request body read failed", st, fs0, [], [], []⟩

/-- The empty local filesystem. -/
def emptyFS : FS := fun _ => Option.none

/-- The empty object store. -/
def emptyS3 : S3 := ⟨fun _ _ => Option.none⟩

/-- An object store whose pitchbox bucket holds a two-byte ASCII script. -/
def scriptS3 : S3 :=
  ⟨fun b k => if b = "pitchbox" ∧ k = "script.txt" then some [104, 105] else Option.none⟩

theorem upload_to_tigris_state (net : Bool) (fs : FS) (st : S3) (p bn objName ep : String) :
    ∃ st2 l, upload_to_tigris net fs st p bn objName ep
        = Except.ok (st2, Py.none, l, [⟨ep, bn, objName⟩])
      ∧ (∀ b k, ¬(b = bn ∧ k = objName) → st2.objects b k = st.objects b k)
      ∧ (net = true → ∀ d, fs p = some d → st2.objects bn objName = some d) := by
  cases net with
  | false =>
    exact ⟨st, _, rfl, fun _ _ _ => rfl, fun h => nomatch h⟩
  | true =>
    cases hfp : fs p with
    | none =>
      refine ⟨st, ["Error uploading " ++ objName ++ ": " ++ "FileNotFoundError"], ?_,
        fun _ _ _ => rfl, ?_⟩
      · unfold upload_to_tigris s3_upload_file
        rw [hfp]
        rfl
      · intro _ d hd
        exact nomatch hd
    | some data =>
      refine ⟨⟨fun b k => if b = bn ∧ k = objName then some data else st.objects b k⟩,
        [objName ++ " uploaded successfully to " ++ bn], ?_, ?_, ?_⟩
      · unfold upload_to_tigris s3_upload_file
        rw [hfp]
        rfl
      · intro b k hbk
        exact if_neg hbk
      · intro _ d hd
        cases hd
        exact if_pos ⟨rfl, rfl⟩

/-- Normal-form lemma for list_and_read_script: it always returns normally and
records exactly one storage call at the given endpoint and bucket, for the key
script.txt. -/
theorem list_and_read_script_state (net : Bool) (st : S3) (bn ep : String) :
    ∃ p l, list_and_read_script net st bn ep = Except.ok (p, l, [⟨ep, bn, "script.txt"⟩]) := by
  unfold list_and_read_script
  split
  · split
    · exact ⟨_, _, rfl⟩
    · exact ⟨_, _, rfl⟩
  · exact ⟨_, _, rfl⟩


/-- C1: the claim fails on the code. With storage reachable and the upload of the
two-byte file succeeding (the object is stored in the bucket), the UploadScript
handler still returns the error body with message Error uploading script.txt and
the error flag set, because upload_to_tigris has no return statement: it returns
None on every path, so the truthiness test in the handler never takes the
success branch. -/
theorem uploadScript_error_body_despite_stored_object :
    (upload_tigris true [104, 105] true emptyFS emptyS3).result
        = Except.ok ⟨"Error uploading script.txt", true⟩
      ∧ (upload_tigris true [104, 105] true emptyFS emptyS3).s3.objects "pitchbox" "script.txt"
        = some [104, 105] := ⟨rfl, rfl⟩

/-- C2: the claim fails on the code. A GenerateAudio request whose storage upload
fails (storage unreachable at the upload step, so zero bytes were uploaded and
the bucket holds no output.mp3 object) still returns the success body, because
upload_to_tigris swallows the failure and generate_audio returns the success
message unconditionally. -/
theorem generateAudio_success_body_after_failed_upload :
    (generate_audio (fun _ => Option.none) (fun _ => Except.ok [[1, 2, 3]]) true false emptyFS scriptS3).result
        = Except.ok ⟨"Audio generated and uploaded successfully.", false⟩
      ∧ (generate_audio (fun _ => Option.none) (fun _ => Except.ok [[1, 2, 3]]) true false emptyFS scriptS3).s3.objects
          "pitchbox" "output.mp3" = Option.none := ⟨rfl, rfl⟩

/-- C3 counterexample: a completed GenerateAudio request leaves its local audio
file ./audio/output.mp3 present on the filesystem, holding the written bytes;
the handler never deletes it. This refutes the claim that every local temporary
file the handlers create is absent when the request completes. -/
theorem generateAudio_leaves_local_audio_file :
    (generate_audio (fun _ => Option.none) (fun _ => Except.ok [[1]]) true true emptyFS scriptS3).result
        = Except.ok ⟨"Audio generated and uploaded successfully.", false⟩
      ∧ (generate_audio (fun _ => Option.none) (fun _ => Except.ok [[1]]) true true emptyFS scriptS3).fs
          "./audio/output.mp3" = some [1] := ⟨rfl, rfl⟩

/-- C3 amended: on every UploadScript request whose body read succeeds, the
temporary file ./temp_script.txt is absent from the filesystem when the request
completes, including when the storage upload fails (the store wrapper never
raises, so the removal always runs); GenerateAudio instead keeps its local audio
file ./audio/output.mp3 on disk, holding the written chunk bytes, after a
completed request. -/
theorem temp_file_discipline (readOk : Bool) (content : Bytes) (net : Bool)
    (fs : FS) (st : S3) (env : Env) (chunks : List Bytes) (netFetch netUpload : Bool)
    (hread : readOk = true) :
    (upload_tigris readOk content net fs st).fs "./temp_script.txt" = Option.none
    ∧ (generate_audio env (fun _ => Except.ok chunks) netFetch netUpload fs st).fs
        "./audio/output.mp3" = some (writeChunks chunks) := by
  subst hread
  constructor
  · unfold upload_tigris
    obtain ⟨st2, l, heq, -, -⟩ := upload_to_tigris_state net
      (FS.update (FS.update fs ("./temp_" ++ "script.txt") []) ("./temp_" ++ "script.txt") content)
      st ("./temp_" ++ "script.txt") "pitchbox" "script.txt" "https://t3.storage.dev"
    simp only [heq]
    rfl
  · unfold generate_audio
    obtain ⟨ptext, l1, hfetch⟩ := list_and_read_script_state netFetch st "pitchbox" "https://t3.storage.dev"
    simp only [hfetch]
    obtain ⟨st2, l2, hup, -, -⟩ := upload_to_tigris_state netUpload
      (FS.update fs "./audio/output.mp3" (writeChunks chunks)) st
      "./audio/output.mp3" "pitchbox" "output.mp3" "https://t3.storage.dev"
    simp only [hup]
    rfl

/-- Witness for the C3 amended theorem at a concrete input: a failing upload still
leaves no temporary file behind, and a completed GenerateAudio request leaves
its local audio file present. -/
theorem temp_file_discipline_witness :
    (upload_tigris true [104, 105] false emptyFS emptyS3).fs "./temp_script.txt" = Option.none
    ∧ (generate_audio (fun _ => Option.none) (fun _ => Except.ok [[1], []]) true true emptyFS emptyS3).fs
        "./audio/output.mp3" = some (writeChunks [[1], []]) :=
  temp_file_discipline true [104, 105] false emptyFS emptyS3 (fun _ => Option.none) [[1], []] true true rfl

/-- C4: the claim fails on the code. When the storage endpoint is unreachable
during the artifact upload of a GenerateAudio request, the handler still returns
the success message rather than an error response. The second half of the claim
does hold on this run: no partial output.mp3 object is left in the bucket. -/
theorem generateAudio_unreachable_upload_still_success :
    (generate_audio (fun _ => Option.none) (fun _ => Except.ok [[7], [8]]) true false emptyFS scriptS3).result
        = Except.ok ⟨"Audio generated and uploaded successfully.", false⟩
      ∧ (generate_audio (fun _ => Option.none) (fun _ => Except.ok [[7], [8]]) true false emptyFS scriptS3).s3.objects
          "pitchbox" "output.mp3" = Option.none := ⟨rfl, rfl⟩

/-- C5: round trip. Uploading a byte sequence that decodes as valid UTF-8 and
then immediately fetching script.txt, with storage reachable for both calls and
no interleaved writes, returns exactly the uploaded bytes decoded as UTF-8
text. -/
theorem upload_then_fetch_roundtrip (content : Bytes) (text : String) (fs : FS) (st : S3)
    (hvalid : utf8Decode content = Except.ok text) :
    list_and_read_script true (upload_tigris true content true fs st).s3 "pitchbox"
      = Except.ok (Py.str text, [],
          [⟨"https://t3.storage.dev", "pitchbox", "script.txt"⟩]) := by
  have h2 : list_and_read_script true (upload_tigris true content true fs st).s3 "pitchbox"
      = (match utf8Decode content with
         | Except.ok t =>
             Except.ok (Py.str t, [], [⟨"https://t3.storage.dev", "pitchbox", "script.txt"⟩])
         | Except.error e =>
             Except.ok (Py.none, ["Error reading script.txt: " ++ e],
               [⟨"https://t3.storage.dev", "pitchbox", "script.txt"⟩])) := rfl
  rw [h2, hvalid]

/-- Witness for the C5 round trip at a concrete input: the two ASCII bytes 104
and 105 round trip to the text hi. -/
theorem upload_then_fetch_roundtrip_witness :
    list_and_read_script true (upload_tigris true [104, 105] true emptyFS emptyS3).s3 "pitchbox"
      = Except.ok (Py.str "hi", [],
          [⟨"https://t3.storage.dev", "pitchbox", "script.txt"⟩]) :=
  upload_then_fetch_roundtrip [104, 105] "hi" emptyFS emptyS3 rfl

/-- C6: for every failure of an underlying storage call, the store wrapper
catches the exception and returns normally with the bucket state unchanged and
the Python value None (so nothing propagates to the caller of its caller), and
the fetch wrapper catches the exception and returns None, the absent result,
instead of raising. -/
theorem storage_wrappers_catch_failures (net net2 : Bool) (fs : FS) (st st2 : S3)
    (p b k ep bn ep2 e1 e2 : String)
    (hup : s3_upload_file net fs st p b k = Except.error e1)
    (hget : s3_get_object net2 st2 bn "script.txt" = Except.error e2) :
    upload_to_tigris net fs st p b k ep
        = Except.ok (st, Py.none, ["Error uploading " ++ k ++ ": " ++ e1], [⟨ep, b, k⟩])
      ∧ list_and_read_script net2 st2 bn ep2
        = Except.ok (Py.none, ["Error reading script.txt: " ++ e2],
            [⟨ep2, bn, "script.txt"⟩]) := by
  constructor
  · unfold upload_to_tigris
    rw [hup]
  · unfold list_and_read_script
    rw [hget]

/-- Witness for C6 at a concrete input: with the endpoint unreachable both
wrappers return normally, the store with the state unchanged and None, the fetch
with None. -/
theorem storage_wrappers_catch_failures_witness :
    upload_to_tigris false emptyFS emptyS3 "./temp_script.txt" "pitchbox" "script.txt" "https://t3.storage.dev"
        = Except.ok (emptyS3, Py.none,
            ["Error uploading " ++ "script.txt" ++ ": " ++ "EndpointConnectionError"],
            [⟨"https://t3.storage.dev", "pitchbox", "script.txt"⟩])
      ∧ list_and_read_script false emptyS3 "pitchbox" "https://t3.storage.dev"
        = Except.ok (Py.none, ["Error reading script.txt: " ++ "EndpointConnectionError"],
            [⟨"https://t3.storage.dev", "pitchbox", "script.txt"⟩]) :=
  storage_wrappers_catch_failures false false emptyFS emptyS3 emptyS3 "./temp_script.txt" "pitchbox"
    "script.txt" "https://t3.storage.dev" "pitchbox" "https://t3.storage.dev"
    "EndpointConnectionError" "EndpointConnectionError" rfl rfl

/-- C7: every object write of the two handlers is in bucket pitchbox under the
fixed key script.txt (UploadScript) or output.mp3 (GenerateAudio), overwriting
whatever was stored there; every other bucket and key pair is left exactly as it
was, so at most one script object and one audio object exist per bucket. -/
theorem handlers_write_only_fixed_keys (readOk net netFetch netUpload : Bool)
    (content : Bytes) (fs : FS) (st : S3) (env : Env)
    (convert : ConvertArgs → Except String (List Bytes)) (chunks : List Bytes)
    (b k : String)
    (hscript : ¬(b = "pitchbox" ∧ k = "script.txt"))
    (haudio : ¬(b = "pitchbox" ∧ k = "output.mp3")) :
    (upload_tigris readOk content net fs st).s3.objects b k = st.objects b k
    ∧ (generate_audio env convert netFetch netUpload fs st).s3.objects b k = st.objects b k
    ∧ (upload_tigris true content true fs st).s3.objects "pitchbox" "script.txt" = some content
    ∧ (generate_audio env (fun _ => Except.ok chunks) netFetch true fs st).s3.objects
        "pitchbox" "output.mp3" = some (writeChunks chunks) := by
  refine ⟨?_, ?_, ?_, ?_⟩
  · cases readOk with
    | false => rfl
    | true =>
      unfold upload_tigris
      obtain ⟨st2, l, heq, hframe, -⟩ := upload_to_tigris_state net
        (FS.update (FS.update fs ("./temp_" ++ "script.txt") []) ("./temp_" ++ "script.txt") content)
        st ("./temp_" ++ "script.txt") "pitchbox" "script.txt" "https://t3.storage.dev"
      simp only [heq]
      exact hframe b k hscript
  · unfold generate_audio
    obtain ⟨ptext, l1, hfetch⟩ := list_and_read_script_state netFetch st "pitchbox" "https://t3.storage.dev"
    simp only [hfetch]
    cases hcv : convert ⟨ptext, os_getenv env "VOICE_ID" "JBFqnCBsd6RMkjVDRZzb",
        "eleven_multilingual_v2", "mp3_44100_128"⟩ with
    | error e => rfl
    | ok chunks2 =>
      obtain ⟨st2, l2, hup, hframe, -⟩ := upload_to_tigris_state netUpload
        (FS.update fs "./audio/output.mp3" (writeChunks chunks2)) st
        "./audio/output.mp3" "pitchbox" "output.mp3" "https://t3.storage.dev"
      simp only [hup]
      exact hframe b k haudio
  · rfl
  · unfold generate_audio
    obtain ⟨ptext, l1, hfetch⟩ := list_and_read_script_state netFetch st "pitchbox" "https://t3.storage.dev"
    simp only [hfetch]
    rfl

/-- Witness for C7 at a concrete input: an unrelated bucket and key pair is
untouched by both handlers, and the two fixed keys receive the written
content. -/
theorem handlers_write_only_fixed_keys_witness :
    (upload_tigris true [104] true emptyFS emptyS3).s3.objects "other-bucket" "other.txt"
        = emptyS3.objects "other-bucket" "other.txt"
    ∧ (generate_audio (fun _ => Option.none) (fun _ => Except.ok [[2]]) true true emptyFS emptyS3).s3.objects
        "other-bucket" "other.txt" = emptyS3.objects "other-bucket" "other.txt"
    ∧ (upload_tigris true [104] true emptyFS emptyS3).s3.objects "pitchbox" "script.txt" = some [104]
    ∧ (generate_audio (fun _ => Option.none) (fun _ => Except.ok [[2]]) true true emptyFS emptyS3).s3.objects
        "pitchbox" "output.mp3" = some (writeChunks [[2]]) :=
  handlers_write_only_fixed_keys true true true true [104] emptyFS emptyS3 (fun _ => Option.none)
    (fun _ => Except.ok [[2]]) [[2]] "other-bucket" "other.txt" (by decide) (by decide)

/-- C8: every synthesis call of a GenerateAudio request uses voice identifier
JBFqnCBsd6RMkjVDRZzb when the environment variable VOICE_ID is unset, and in
every case model identifier eleven_multilingual_v2 and output format
mp3_44100_128. -/
theorem synthesis_call_parameters (env : Env)
    (convert : ConvertArgs → Except String (List Bytes))
    (netFetch netUpload : Bool) (fs : FS) (st : S3) (a : ConvertArgs)
    (ha : a ∈ (generate_audio env convert netFetch netUpload fs st).tts) :
    (env "VOICE_ID" = Option.none → a.voice_id = "JBFqnCBsd6RMkjVDRZzb")
    ∧ a.model_id = "eleven_multilingual_v2"
    ∧ a.output_format = "mp3_44100_128" := by
  unfold generate_audio at ha
  obtain ⟨ptext, l1, hfetch⟩ := list_and_read_script_state netFetch st "pitchbox" "https://t3.storage.dev"
  simp only [hfetch] at ha
  cases hcv : convert ⟨ptext, os_getenv env "VOICE_ID" "JBFqnCBsd6RMkjVDRZzb",
      "eleven_multilingual_v2", "mp3_44100_128"⟩ with
  | error e =>
    simp only [hcv] at ha
    have ha2 : a = ⟨ptext, os_getenv env "VOICE_ID" "JBFqnCBsd6RMkjVDRZzb",
        "eleven_multilingual_v2", "mp3_44100_128"⟩ := by simpa using ha
    subst ha2
    refine ⟨?_, rfl, rfl⟩
    intro henv
    simp [os_getenv, henv]
  | ok chunks =>
    obtain ⟨st2, l2, hup, -, -⟩ := upload_to_tigris_state netUpload
      (FS.update fs "./audio/output.mp3" (writeChunks chunks)) st
      "./audio/output.mp3" "pitchbox" "output.mp3" "https://t3.storage.dev"
    simp only [hcv, hup] at ha
    have ha2 : a = ⟨ptext, os_getenv env "VOICE_ID" "JBFqnCBsd6RMkjVDRZzb",
        "eleven_multilingual_v2", "mp3_44100_128"⟩ := by simpa [Py.truthy] using ha
    subst ha2
    refine ⟨?_, rfl, rfl⟩
    intro henv
    simp [os_getenv, henv]

/-- Witness for C8 at a concrete input: the one synthesis call of a run with an
empty environment carries the default voice, the fixed model and the fixed
output format. -/
theorem synthesis_call_parameters_witness :
    (⟨Py.none, "JBFqnCBsd6RMkjVDRZzb", "eleven_multilingual_v2", "mp3_44100_128"⟩ : ConvertArgs).voice_id
        = "JBFqnCBsd6RMkjVDRZzb"
    ∧ (⟨Py.none, "JBFqnCBsd6RMkjVDRZzb", "eleven_multilingual_v2", "mp3_44100_128"⟩ : ConvertArgs).model_id
        = "eleven_multilingual_v2"
    ∧ (⟨Py.none, "JBFqnCBsd6RMkjVDRZzb", "eleven_multilingual_v2", "mp3_44100_128"⟩ : ConvertArgs).output_format
        = "mp3_44100_128" := by
  have h := synthesis_call_parameters (fun _ => Option.none) (fun _ => Except.ok [[1]])
    true true emptyFS emptyS3
    ⟨Py.none, "JBFqnCBsd6RMkjVDRZzb", "eleven_multilingual_v2", "mp3_44100_128"⟩ (by decide)
  exact ⟨h.1 rfl, h.2.1, h.2.2⟩

/-- Folding the chunk write loop over a list of chunks appends the flattening of
the list: empty chunks are skipped by the loop but contribute nothing to the
result. -/
theorem writeChunks_foldl (l : List Bytes) (acc : Bytes) :
    List.foldl (fun acc c => if c = [] then acc else acc ++ c) acc l = acc ++ l.flatten := by
  induction l generalizing acc with
  | nil => simp
  | cons c rest ih =>
    by_cases hc : c = []
    · simp [hc, ih]
    · simp [hc, ih, List.append_assoc]

/-- C9: the chunk write loop produces exactly the bytes of all chunks joined in
stream order, with falsy (empty) chunks skipped and contributing zero bytes, and
the local audio file of GenerateAudio holds exactly those joined bytes after the
loop. -/
theorem write_loop_concat_chunks (chunks : List Bytes) (env : Env)
    (netFetch netUpload : Bool) (fs : FS) (st : S3) :
    writeChunks chunks = chunks.flatten
    ∧ (generate_audio env (fun _ => Except.ok chunks) netFetch netUpload fs st).fs
        "./audio/output.mp3" = some chunks.flatten := by
  have hw : writeChunks chunks = chunks.flatten := by
    unfold writeChunks
    rw [writeChunks_foldl]
    simp
  refine ⟨hw, ?_⟩
  unfold generate_audio
  obtain ⟨ptext, l1, hfetch⟩ := list_and_read_script_state netFetch st "pitchbox" "https://t3.storage.dev"
  simp only [hfetch]
  obtain ⟨st2, l2, hup, -, -⟩ := upload_to_tigris_state netUpload
    (FS.update fs "./audio/output.mp3" (writeChunks chunks)) st
    "./audio/output.mp3" "pitchbox" "output.mp3" "https://t3.storage.dev"
  simp only [hup]
  rw [← hw]
  rfl

/-- C10: every storage call made by either handler addresses the constant
endpoint https://t3.storage.dev and the constant bucket pitchbox, whatever the
environment, the request content, the vendor oracle and the reachability of
storage are. -/
theorem storage_calls_fixed_endpoint_bucket (env : Env)
    (convert : ConvertArgs → Except String (List Bytes))
    (netFetch netUpload readOk net : Bool) (content : Bytes)
    (fs fs2 : FS) (st st2 : S3) (c : S3Call)
    (hc : c ∈ (generate_audio env convert netFetch netUpload fs st).calls
        ∨ c ∈ (upload_tigris readOk content net fs2 st2).calls) :
    c.endpoint = "https://t3.storage.dev" ∧ c.bucket = "pitchbox" := by
  cases hc with
  | inl h =>
    unfold generate_audio at h
    obtain ⟨ptext, l1, hfetch⟩ := list_and_read_script_state netFetch st "pitchbox" "https://t3.storage.dev"
    simp only [hfetch] at h
    cases hcv : convert ⟨ptext, os_getenv env "VOICE_ID" "JBFqnCBsd6RMkjVDRZzb",
        "eleven_multilingual_v2", "mp3_44100_128"⟩ with
    | error e =>
      simp only [hcv] at h
      have h2 : c = ⟨"https://t3.storage.dev", "pitchbox", "script.txt"⟩ := by simpa using h
      subst h2
      exact ⟨rfl, rfl⟩
    | ok chunks =>
      obtain ⟨st3, l2, hup, -, -⟩ := upload_to_tigris_state netUpload
        (FS.update fs "./audio/output.mp3" (writeChunks chunks)) st
        "./audio/output.mp3" "pitchbox" "output.mp3" "https://t3.storage.dev"
      simp only [hcv, hup] at h
      have h2 : c = ⟨"https://t3.storage.dev", "pitchbox", "script.txt"⟩
          ∨ c = ⟨"https://t3.storage.dev", "pitchbox", "output.mp3"⟩ := by
        simpa using h
      cases h2 with
      | inl h3 => subst h3; exact ⟨rfl, rfl⟩
      | inr h3 => subst h3; exact ⟨rfl, rfl⟩
  | inr h =>
    cases readOk with
    | false => exact absurd h (List.not_mem_nil c)
    | true =>
      unfold upload_tigris at h
      obtain ⟨st3, l, heq, -, -⟩ := upload_to_tigris_state net
        (FS.update (FS.update fs2 ("./temp_" ++ "script.txt") []) ("./temp_" ++ "script.txt") content)
        st2 ("./temp_" ++ "script.txt") "pitchbox" "script.txt" "https://t3.storage.dev"
      simp only [heq] at h
      have h2 : c = ⟨"https://t3.storage.dev", "pitchbox", "script.txt"⟩ := by
        simpa [Py.truthy] using h
      subst h2
      exact ⟨rfl, rfl⟩

/-- Witness for C10 at a concrete input: the storage call recorded by a concrete
UploadScript run addresses the fixed endpoint and bucket. -/
theorem storage_calls_fixed_endpoint_bucket_witness :
    (⟨"https://t3.storage.dev", "pitchbox", "script.txt"⟩ : S3Call).endpoint = "https://t3.storage.dev"
    ∧ (⟨"https://t3.storage.dev", "pitchbox", "script.txt"⟩ : S3Call).bucket = "pitchbox" :=
  storage_calls_fixed_endpoint_bucket (fun _ => Option.none) (fun _ => Except.ok [[1]])
    true true true true [104] emptyFS emptyFS emptyS3 emptyS3
    ⟨"https://t3.storage.dev", "pitchbox", "script.txt"⟩
    (Or.inr (by decide))

end Pitchbox
